import Mathlib

/-!
Verification of the two example notebooks shipped in this repository
(the MT3D-USGS SFT/LKT/UZT demonstration and the MODFLOW-USG Zaidel
problem).  The notebooks are sequential Python scripts; we embed

* the sequence of top-level statements of each notebook, classified by
  the Python construct they use (imports, assignments, local loops,
  library constructor calls, solver invocation, output reading,
  plotting), for the claims about error handling, I/O delegation and
  sequencing;
* the three locally written input-building loops (the GHB
  stress-period list, the lake-boundary neighbor expansion, the
  staircase bottom array), as executable Lean functions mirroring the
  Python statement by statement;
* the semantics of the guarded workspace-directory creation and of the
  try/except head-file cleanup, over an explicit file-system and
  Python-name-environment model.

Machine floats in the source are modelled as exact rationals; none of
the verified properties depends on rounding.
-/

/-- Classification of the right-hand side of a Python assignment in the
notebooks: a literal (or arithmetic over literals), a call into the
Python standard library, a call into numpy or pandas, a call into the
flopy modeling library, or an expression over already-bound variables. -/
inductive Src where
  | literal
  | stdlibCall (f : String)
  | numpyCall (f : String)
  | pandasCall (f : String)
  | flopyCall (f : String)
  | varExpr
deriving DecidableEq

/-- One top-level statement of a notebook code cell.  Constructors exist
for every kind of statement that occurs in the two notebooks, plus
constructors (thread spawning, direct file writing, direct binary
parsing) that occur in neither, so that their absence is a checkable
property of the statement lists rather than of the type. -/
inductive Stmt where
  | importStmt (m : String)
  | tryImportFallback (m : String)
  | printStmt
  | assign (v : String) (s : Src)
  | ifWindowsAddExe (vs : List String)
  | guardedMakedirs (pathVar : String)
  | forLoopBuild (targets : List String) (reads : List String)
  | sliceAssign (v : String)
  | exprEval
  | writeInput (model : String)
  | runModel (model : String)
  | tryRemoveHeadFile (wsVar nameVar : String)
  | readBinaryOutput (v : String) (f : String)
  | plotStmt (f : String)
  | spawnThread (desc : String)
  | directFileWrite (path : String)
  | directBinaryParse (path : String)
deriving DecidableEq

/-- Top-level statements of the MT3D-USGS notebook (first document), in
source order, one entry per top-level Python statement. -/
def nb1Stmts : List Stmt :=
  [ -- cell 1
    Stmt.importStmt "os", Stmt.importStmt "sys", Stmt.importStmt "platform",
    Stmt.importStmt "numpy", Stmt.importStmt "pandas", Stmt.importStmt "matplotlib",
    Stmt.importStmt "matplotlib.pyplot",
    Stmt.tryImportFallback "flopy",
    Stmt.printStmt, Stmt.printStmt, Stmt.printStmt, Stmt.printStmt,
    -- cell 2
    Stmt.assign "modelpth" (Src.stdlibCall "os.path.join"),
    Stmt.assign "modelname" Src.literal,
    Stmt.assign "mfexe" Src.literal,
    Stmt.assign "mtexe" Src.literal,
    Stmt.ifWindowsAddExe ["mfexe", "mtexe"],
    Stmt.guardedMakedirs "modelpth",
    Stmt.assign "mf" (Src.flopyCall "flopy.modflow.Modflow"),
    -- cell 3
    Stmt.assign "Lx" Src.literal, Stmt.assign "Ly" Src.literal,
    Stmt.assign "nrow" Src.literal, Stmt.assign "ncol" Src.literal, Stmt.assign "nlay" Src.literal,
    Stmt.assign "delr" Src.varExpr, Stmt.assign "delc" Src.varExpr,
    Stmt.assign "xmax" Src.varExpr, Stmt.assign "ymax" Src.varExpr,
    Stmt.assign "X, Y" (Src.numpyCall "np.meshgrid"),
    -- cell 4
    Stmt.assign "oc" (Src.flopyCall "flopy.modflow.ModflowOc"),
    -- cell 5
    Stmt.assign "headtol" Src.literal, Stmt.assign "fluxtol" Src.literal,
    Stmt.assign "maxiterout" Src.literal, Stmt.assign "thickfact" Src.literal,
    Stmt.assign "linmeth" Src.literal, Stmt.assign "iprnwt" Src.literal,
    Stmt.assign "ibotav" Src.literal,
    Stmt.assign "nwt" (Src.flopyCall "flopy.modflow.ModflowNwt"),
    -- cell 6
    Stmt.assign "elv_pth" (Src.stdlibCall "os.path.join"),
    Stmt.assign "grndElv" (Src.numpyCall "np.loadtxt"),
    Stmt.assign "bt1_pth" (Src.stdlibCall "os.path.join"),
    Stmt.assign "bot1Elv" (Src.numpyCall "np.loadtxt"),
    Stmt.assign "bot2Elv" (Src.numpyCall "np.ones"),
    Stmt.assign "bot3Elv" (Src.numpyCall "np.zeros"),
    Stmt.assign "botm" Src.varExpr,
    Stmt.assign "botm" (Src.numpyCall "np.array"),
    Stmt.assign "Steady" Src.literal, Stmt.assign "nstp" Src.literal,
    Stmt.assign "tsmult" Src.literal, Stmt.assign "perlen" Src.literal,
    Stmt.assign "dis" (Src.flopyCall "flopy.modflow.ModflowDis"),
    -- cell 7
    Stmt.assign "hdry" Src.literal, Stmt.assign "iphdry" Src.literal,
    Stmt.assign "laytyp" Src.literal, Stmt.assign "layavg" Src.literal,
    Stmt.assign "chani" Src.literal, Stmt.assign "layvka" Src.literal,
    Stmt.assign "laywet" Src.literal, Stmt.assign "hk" Src.literal,
    Stmt.assign "vka" Src.literal, Stmt.assign "ss" Src.literal, Stmt.assign "sy" Src.literal,
    Stmt.assign "upw" (Src.flopyCall "flopy.modflow.ModflowUpw"),
    -- cell 8
    Stmt.assign "ibnd1_pth" (Src.stdlibCall "os.path.join"),
    Stmt.assign "ibnd1" (Src.numpyCall "np.loadtxt"),
    Stmt.assign "ibnd2" (Src.numpyCall "np.ones"),
    Stmt.assign "ibnd3" (Src.numpyCall "np.ones"),
    Stmt.assign "ibnd" Src.varExpr,
    Stmt.assign "ibnd" (Src.numpyCall "np.array"),
    Stmt.assign "StHd1_pth" (Src.stdlibCall "os.path.join"),
    Stmt.assign "StHd1" (Src.numpyCall "np.loadtxt"),
    Stmt.assign "StHd2_pth" (Src.stdlibCall "os.path.join"),
    Stmt.assign "StHd2" (Src.numpyCall "np.loadtxt"),
    Stmt.assign "StHd3_pth" (Src.stdlibCall "os.path.join"),
    Stmt.assign "StHd3" (Src.numpyCall "np.loadtxt"),
    Stmt.assign "strtElev" Src.varExpr,
    Stmt.assign "strtElev" (Src.numpyCall "np.array"),
    Stmt.assign "hdry" Src.literal,
    Stmt.assign "bas" (Src.flopyCall "flopy.modflow.ModflowBas"),
    -- cell 9
    Stmt.assign "elev_stpt_row1" Src.literal,
    Stmt.assign "elev_stpt_row300" Src.literal,
    Stmt.assign "elev_slp" Src.varExpr,
    Stmt.assign "sp" Src.literal,
    Stmt.forLoopBuild ["sp"] ["k", "i", "j", "elev_stpt_row1", "elev_stpt_row300", "elev_slp"],
    Stmt.forLoopBuild ["sp"] ["k", "j"],
    Stmt.assign "ghb" (Src.flopyCall "flopy.modflow.ModflowGhb"),
    -- cell 10
    Stmt.assign "rpth" (Src.stdlibCall "os.path.join"),
    Stmt.assign "reach_data" (Src.numpyCall "np.genfromtxt"),
    Stmt.exprEval,
    Stmt.assign "spth" (Src.stdlibCall "os.path.join"),
    Stmt.assign "ss_segment_data" (Src.numpyCall "np.genfromtxt"),
    Stmt.assign "segment_data" Src.varExpr,
    Stmt.exprEval,
    Stmt.assign "nstrm" Src.varExpr, Stmt.assign "nss" Src.varExpr,
    Stmt.assign "nsfrpar" Src.literal, Stmt.assign "const" Src.literal,
    Stmt.assign "dleak" Src.literal, Stmt.assign "ipakcb" Src.literal,
    Stmt.assign "istcb2" Src.literal, Stmt.assign "isfropt" Src.literal,
    Stmt.assign "dataset_5" Src.varExpr,
    Stmt.assign "sfr" (Src.flopyCall "flopy.modflow.ModflowSfr2"),
    -- cell 11
    Stmt.assign "LakArr_pth" (Src.stdlibCall "os.path.join"),
    Stmt.assign "LakArr_lyr1" (Src.numpyCall "np.loadtxt"),
    Stmt.assign "LakArr_lyr2" (Src.numpyCall "np.zeros"),
    Stmt.assign "LakArr_lyr3" (Src.numpyCall "np.zeros"),
    Stmt.assign "LakArr" Src.varExpr,
    Stmt.assign "LakArr" (Src.numpyCall "np.array"),
    Stmt.assign "nlakes" (Src.numpyCall "np.max"),
    Stmt.assign "ipakcb" Src.varExpr,
    Stmt.assign "theta" Src.literal, Stmt.assign "nssitr" Src.literal,
    Stmt.assign "sscncr" Src.literal, Stmt.assign "surfdep" Src.literal,
    Stmt.assign "stages" Src.literal,
    Stmt.assign "bdlknc_lyr1" (Src.numpyCall "ndarray.copy"),
    Stmt.assign "bdlknc_lyr2" (Src.numpyCall "ndarray.copy"),
    Stmt.assign "bdlknc_lyr3" (Src.numpyCall "np.zeros"),
    Stmt.forLoopBuild ["bdlknc_lyr1"] ["LakArr_lyr1"],
    Stmt.assign "bdlknc" Src.varExpr,
    Stmt.assign "bdlknc" (Src.numpyCall "np.array"),
    Stmt.assign "flux_data" Src.literal,
    Stmt.assign "lak" (Src.flopyCall "flopy.modflow.ModflowLak"),
    -- cell 12
    Stmt.assign "gages" Src.literal,
    Stmt.assign "files" Src.literal,
    Stmt.assign "numgage" Src.varExpr,
    Stmt.assign "gage" (Src.flopyCall "flopy.modflow.ModflowGage"),
    -- cell 13
    Stmt.assign "nuztop" Src.literal, Stmt.assign "iuzfopt" Src.literal,
    Stmt.assign "irunflg" Src.literal, Stmt.assign "ietflg" Src.literal,
    Stmt.assign "iuzfcb" Src.literal, Stmt.assign "iuzfcb2" Src.literal,
    Stmt.assign "ntrail2" Src.literal, Stmt.assign "nsets2" Src.literal,
    Stmt.assign "nuzgag" Src.literal, Stmt.assign "surfdep" Src.literal,
    Stmt.assign "eps" Src.literal, Stmt.assign "thts" Src.literal, Stmt.assign "thti" Src.literal,
    Stmt.assign "fname_uzbnd" (Src.stdlibCall "os.path.join"),
    Stmt.assign "fname_runbnd" (Src.stdlibCall "os.path.join"),
    Stmt.assign "iuzfbnd" (Src.numpyCall "np.loadtxt"),
    Stmt.assign "irunbnd" (Src.numpyCall "np.loadtxt"),
    Stmt.assign "uzgag" Src.literal,
    Stmt.assign "finf" Src.literal,
    Stmt.assign "uzf" (Src.flopyCall "flopy.modflow.ModflowUzf1"),
    -- cell 14
    Stmt.assign "fname_drnElv" (Src.stdlibCall "os.path.join"),
    Stmt.assign "fname_drnCond" (Src.stdlibCall "os.path.join"),
    Stmt.assign "drnElv" (Src.numpyCall "np.loadtxt"),
    Stmt.assign "drnCond" (Src.numpyCall "np.loadtxt"),
    Stmt.assign "drnElv_lst" (Src.pandasCall "pd.DataFrame"),
    Stmt.assign "stress_period_data" Src.varExpr,
    Stmt.assign "stress_period_data" Src.varExpr,
    Stmt.assign "drn" (Src.flopyCall "flopy.modflow.ModflowDrn"),
    -- cell 15
    Stmt.assign "lmt" (Src.flopyCall "flopy.modflow.ModflowLmt"),
    -- cell 16
    Stmt.assign "mt" (Src.flopyCall "flopy.mt3d.Mt3dms"),
    -- cell 17
    Stmt.assign "ncomp" Src.literal, Stmt.assign "lunit" Src.literal,
    Stmt.assign "sconc" Src.literal, Stmt.assign "prsity" Src.literal,
    Stmt.assign "cinact" Src.literal, Stmt.assign "thkmin" Src.literal,
    Stmt.assign "nprs" Src.literal, Stmt.assign "nprobs" Src.literal,
    Stmt.assign "nprmas" Src.literal, Stmt.assign "dt0" Src.literal,
    Stmt.assign "nstp" Src.literal, Stmt.assign "mxstrn" Src.literal,
    Stmt.assign "ttsmult" Src.literal, Stmt.assign "ttsmax" Src.literal,
    Stmt.assign "obs" Src.literal,
    Stmt.assign "btn" (Src.flopyCall "flopy.mt3d.Mt3dBtn"),
    -- cell 18
    Stmt.assign "mixelm" Src.literal, Stmt.assign "percel" Src.literal,
    Stmt.assign "mxpart" Src.literal, Stmt.assign "nadvfd" Src.literal,
    Stmt.assign "adv" (Src.flopyCall "flopy.mt3d.Mt3dAdv"),
    -- cell 19
    Stmt.assign "mxiter" Src.literal, Stmt.assign "iter1" Src.literal,
    Stmt.assign "isolve" Src.literal, Stmt.assign "ncrs" Src.literal,
    Stmt.assign "accl" Src.literal, Stmt.assign "cclose" Src.literal,
    Stmt.assign "iprgcg" Src.literal,
    Stmt.assign "gcg" (Src.flopyCall "flopy.mt3d.Mt3dGcg"),
    -- cell 20
    Stmt.assign "al" Src.literal, Stmt.assign "trpt" Src.literal,
    Stmt.assign "trpv" Src.literal, Stmt.assign "dmcoef" Src.literal,
    Stmt.assign "dsp" (Src.flopyCall "flopy.mt3d.Mt3dDsp"),
    -- cell 21
    Stmt.assign "mxss" Src.literal,
    Stmt.assign "ssm" (Src.flopyCall "flopy.mt3d.Mt3dSsm"),
    -- cell 22
    Stmt.assign "isothm" Src.literal, Stmt.assign "ireact" Src.literal,
    Stmt.assign "irctop" Src.literal, Stmt.assign "igetsc" Src.literal,
    Stmt.assign "ireaction" Src.literal, Stmt.assign "rc1" Src.literal,
    Stmt.assign "rc2" Src.literal,
    Stmt.assign "rct" (Src.flopyCall "flopy.mt3d.Mt3dRct"),
    -- cell 23
    Stmt.assign "nsfinit" Src.varExpr, Stmt.assign "mxsfbc" Src.varExpr,
    Stmt.assign "icbcsf" Src.literal, Stmt.assign "ioutobs" Src.literal,
    Stmt.assign "isfsolv" Src.literal, Stmt.assign "wimp" Src.literal,
    Stmt.assign "wups" Src.literal, Stmt.assign "cclosesf" Src.literal,
    Stmt.assign "mxitersf" Src.literal, Stmt.assign "crntsf" Src.literal,
    Stmt.assign "iprtxmd" Src.literal, Stmt.assign "coldsf" Src.literal,
    Stmt.assign "dispsf" Src.literal, Stmt.assign "obs_sf" Src.literal,
    Stmt.assign "sf_stress_period_data" Src.literal,
    Stmt.assign "gage_output" Src.literal,
    Stmt.assign "sft" (Src.flopyCall "flopy.mt3d.Mt3dSft"),
    -- cell 24
    Stmt.assign "mxuzcon" (Src.numpyCall "np.count_nonzero"),
    Stmt.assign "icbcuz" Src.literal, Stmt.assign "iet" Src.literal,
    Stmt.assign "wc" (Src.numpyCall "np.ones"),
    Stmt.assign "sdh" (Src.numpyCall "np.ones"),
    Stmt.assign "uzt" (Src.flopyCall "flopy.mt3d.Mt3dUzt"),
    -- cell 25
    Stmt.assign "nlkinit" Src.literal, Stmt.assign "mxlkbc" Src.literal,
    Stmt.assign "icbclk" Src.literal, Stmt.assign "ietlak" Src.literal,
    Stmt.assign "coldlak" Src.literal,
    Stmt.assign "lkt_flux_data" Src.literal,
    Stmt.assign "lkt" (Src.flopyCall "flopy.mt3d.Mt3dLkt"),
    -- cell 26 (the run_model calls are commented out in the source)
    Stmt.assign "pth" (Src.stdlibCall "os.getcwd"),
    Stmt.printStmt,
    Stmt.writeInput "mf",
    Stmt.writeInput "mt" ]

/-- Top-level statements of the MODFLOW-USG Zaidel notebook (second
document), in source order. -/
def nb2Stmts : List Stmt :=
  [ -- cell 1
    Stmt.importStmt "os", Stmt.importStmt "sys", Stmt.importStmt "platform",
    Stmt.importStmt "numpy", Stmt.importStmt "matplotlib",
    Stmt.importStmt "matplotlib.pyplot",
    Stmt.tryImportFallback "flopy",
    Stmt.printStmt, Stmt.printStmt, Stmt.printStmt, Stmt.printStmt,
    -- cell 2
    Stmt.assign "exe_name" Src.literal,
    Stmt.ifWindowsAddExe ["exe_name"],
    Stmt.assign "mfexe" Src.varExpr,
    Stmt.assign "modelname" Src.literal,
    Stmt.assign "modelpth" (Src.stdlibCall "os.path.join"),
    Stmt.guardedMakedirs "modelpth",
    -- cell 3
    Stmt.assign "nlay, nrow, ncol" Src.literal,
    Stmt.assign "delr" Src.literal, Stmt.assign "delc" Src.literal,
    Stmt.assign "h1" Src.literal, Stmt.assign "h2" Src.literal,
    Stmt.assign "x" (Src.numpyCall "np.arange"),
    Stmt.assign "ibound" (Src.numpyCall "np.ones"),
    Stmt.sliceAssign "ibound", Stmt.sliceAssign "ibound",
    Stmt.assign "botm" (Src.numpyCall "np.ones"),
    Stmt.assign "base" Src.literal,
    Stmt.forLoopBuild ["botm", "base"] ["base", "j"],
    Stmt.assign "strt" (Src.numpyCall "np.ones"),
    Stmt.sliceAssign "strt",
    -- cell 4
    Stmt.assign "mf" (Src.flopyCall "flopy.mfusg.MfUsg"),
    Stmt.assign "dis" (Src.flopyCall "flopy.modflow.ModflowDis"),
    Stmt.assign "bas" (Src.flopyCall "flopy.modflow.ModflowBas"),
    Stmt.assign "lpf" (Src.flopyCall "flopy.mfusg.MfUsgLpf"),
    Stmt.assign "oc" (Src.flopyCall "flopy.modflow.ModflowOc"),
    Stmt.assign "sms" (Src.flopyCall "flopy.mfusg.MfUsgSms"),
    Stmt.writeInput "mf",
    Stmt.tryRemoveHeadFile "model_ws" "modelname",
    Stmt.runModel "mf",
    -- cell 5
    Stmt.assign "headfile" (Src.stdlibCall "os.path.join"),
    Stmt.readBinaryOutput "headobj" "flopy.utils.HeadFile",
    Stmt.readBinaryOutput "times" "headobj.get_times",
    Stmt.readBinaryOutput "mfusghead" "headobj.get_data",
    -- cell 6
    Stmt.plotStmt "plt.figure",
    Stmt.plotStmt "fig.subplots_adjust",
    Stmt.plotStmt "fig.add_subplot",
    Stmt.plotStmt "ax.plot",
    Stmt.plotStmt "ax.fill_between",
    Stmt.plotStmt "ax.legend",
    Stmt.plotStmt "leg.draw_frame",
    Stmt.plotStmt "ax.set_xlabel",
    Stmt.plotStmt "ax.set_ylabel",
    Stmt.plotStmt "ax.set_ylim" ]

/-- Both notebooks of the material. -/
def notebooks : List (List Stmt) := [nb1Stmts, nb2Stmts]

/-- All statements of the material, in order. -/
def allStmts : List Stmt := nb1Stmts ++ nb2Stmts

/-- A statement whose execution catches (and possibly suppresses) a
Python exception: the try/except import fallback and the try/except
head-file removal.  The guarded makedirs uses exist_ok, not an except
clause, so it catches nothing. -/
def catchesException : Stmt → Bool
  | Stmt.tryImportFallback _ => true
  | Stmt.tryRemoveHeadFile _ _ => true
  | _ => false

/-- The optional head-file cleanup statement. -/
def isHeadFileCleanup : Stmt → Bool
  | Stmt.tryRemoveHeadFile _ _ => true
  | _ => false

/-- The guarded model-workspace directory creation statement. -/
def isGuardedMakedirs : Stmt → Bool
  | Stmt.guardedMakedirs _ => true
  | _ => false

/-- A call of the run_model method, which invokes the external solver. -/
def isRunModel : Stmt → Bool
  | Stmt.runModel _ => true
  | _ => false

/-- A write_input call, producing the text input decks through the
modeling library. -/
def isWriteInput : Stmt → Bool
  | Stmt.writeInput _ => true
  | _ => false

/-- A statement that loads simulator binary output through the modeling
library head-file reader. -/
def isBinaryRead : Stmt → Bool
  | Stmt.readBinaryOutput _ _ => true
  | _ => false

/-- A plotting statement. -/
def isPlot : Stmt → Bool
  | Stmt.plotStmt _ => true
  | _ => false

/-- A locally implemented Python loop that builds model-input data. -/
def isLocalLoopBuild : Stmt → Bool
  | Stmt.forLoopBuild _ _ => true
  | _ => false

/-- A statement spawning a thread or concurrent task. -/
def isSpawnThread : Stmt → Bool
  | Stmt.spawnThread _ => true
  | _ => false

/-- Notebook code writing an input-deck file by itself, without going
through the modeling library. -/
def isDirectFileWrite : Stmt → Bool
  | Stmt.directFileWrite _ => true
  | _ => false

/-- Notebook code parsing a binary output file by itself, without going
through the modeling library. -/
def isDirectBinaryParse : Stmt → Bool
  | Stmt.directBinaryParse _ => true
  | _ => false

/-- The statements strictly after the first statement satisfying p. -/
def afterFirst (p : Stmt → Bool) (nb : List Stmt) : List Stmt :=
  (nb.dropWhile fun s => !p s).drop 1

/-- The property claimed of every notebook: it invokes the external
simulator, later loads the simulator binary head output, and later
still plots it. -/
def runsThenReadsThenPlots (nb : List Stmt) : Bool :=
  nb.any isRunModel &&
  (afterFirst isRunModel nb).any isBinaryRead &&
  (afterFirst isBinaryRead (afterFirst isRunModel nb)).any isPlot

/-- Events of the sequential execution trace; n is the position of the
statement in the notebook statement list. -/
inductive Event where
  | stmtStart (n : Nat)
  | solverStart (n : Nat)
  | solverEnd (n : Nat)
  | stmtEnd (n : Nat)
deriving DecidableEq

/-- Modelled from the spec: run_model shells out to the external solver
process and waits synchronously for completion (the waiting happens in
the flopy library, whose code is not under src).  Every statement of the
sequential script therefore contributes a contiguous block of events,
and the solver process started by a run_model statement terminates
before that statement finishes. -/
def stmtEvents (n : Nat) (s : Stmt) : List Event :=
  match s with
  | Stmt.runModel _ =>
      [Event.stmtStart n, Event.solverStart n, Event.solverEnd n, Event.stmtEnd n]
  | _ => [Event.stmtStart n, Event.stmtEnd n]

/-- The execution trace of a notebook: its statements run one after the
other, each contributing its events. -/
def runTrace (nb : List Stmt) : List Event :=
  nb.enum.flatMap fun p => stmtEvents p.1 p.2

/-- In the trace of nb, every statement that comes after the first
run_model statement starts only after that run_model statement's solver
process has ended. -/
def solverBlocksLaterStmts (nb : List Stmt) : Bool :=
  let t := runTrace nb
  let r := nb.findIdx isRunModel
  let e := t.findIdx fun ev => decide (ev = Event.solverEnd r)
  t.enum.all fun p =>
    match p.2 with
    | Event.stmtStart n => decide (n ≤ r) || decide (e < p.1)
    | _ => true

/-- Python evaluation of a bare name: the name either is bound in the
environment or raising NameError.  The environment is the list of bound
names together with their string values (only string-valued names are
relevant here). -/
def lookupName (env : List (String × String)) (x : String) : Option String :=
  (env.find? fun p => p.1 = x).map fun p => p.2

/-- The names bound in the Zaidel notebook before its head-file cleanup
runs, with their values where the value is a string (non-string values
are recorded with an empty value; only presence matters for NameError).
The name model_ws is absent: the notebook only ever binds modelpth, and
model_ws occurs solely as a keyword argument of the MfUsg constructor,
which binds no variable in the script. -/
def zaidelEnv : List (String × String) :=
  [("os", ""), ("sys", ""), ("platform", ""), ("np", ""), ("mpl", ""),
   ("plt", ""), ("flopy", ""), ("fpth", ""),
   ("exe_name", "mfusg"), ("mfexe", "mfusg"),
   ("modelname", "zaidel"), ("modelpth", "data/zaidel"),
   ("nlay", ""), ("nrow", ""), ("ncol", ""), ("delr", ""), ("delc", ""),
   ("h1", ""), ("h2", ""), ("x", ""), ("ibound", ""), ("botm", ""),
   ("base", ""), ("j", ""), ("strt", ""),
   ("mf", ""), ("dis", ""), ("bas", ""), ("lpf", ""), ("oc", ""), ("sms", "")]

/-- Semantics of the cleanup statement of the Zaidel notebook,

  try:
      os.remove(os.path.join(model_ws, modelname + extension))
  except:
      pass

over a file system modelled as the list of existing file paths.
Evaluating the argument first evaluates the name model_ws; if that name
is unbound, a NameError is raised before os.remove runs and the bare
except suppresses it, leaving the file system unchanged.  If the name is
bound, os.remove deletes the file when it exists, and raises
FileNotFoundError (again suppressed) when it does not. -/
def tryRemoveHeadFileSem (env : List (String × String)) (modelname : String)
    (fs : List String) : List String :=
  match lookupName env "model_ws" with
  | none => fs
  | some ws =>
      let p := ws ++ "/" ++ modelname ++ ".hds"
      if p ∈ fs then fs.erase p else fs

/-- Path of the Zaidel head file inside the model workspace. -/
def zaidelHeadFilePath : String := "data/zaidel/zaidel.hds"

/-- Directory paths are lists of path components; a file system is the
list of directories that exist. -/
def initSegs (p : List String) : List (List String) :=
  (List.range p.length).map fun k => p.take (k + 1)

/-- Insert a directory if it does not exist yet. -/
def insertDir (acc : List (List String)) (d : List String) : List (List String) :=
  if d ∈ acc then acc else acc ++ [d]

/-- os.makedirs(p, exist_ok=True): create the directory and all its
ancestors, never raising. -/
def makedirs (p : List String) (fs : List (List String)) : List (List String) :=
  (initSegs p).foldl insertDir fs

/-- The guarded setup statement, if not os.path.isdir(p) then
os.makedirs(p, exist_ok=True). -/
def guardedMakedirsSem (p : List String) (fs : List (List String)) :
    List (List String) :=
  if p ∈ fs then fs else makedirs p fs

/-- Model workspace path of the MT3D-USGS notebook,
os.path.join(".", "temp", "no3"). -/
def nb1Modelpth : List String := [".", "temp", "no3"]

/-- Model workspace path of the Zaidel notebook,
os.path.join("data", "zaidel"). -/
def nb2Modelpth : List String := ["data", "zaidel"]

/-- One entry of the GHB stress-period list: layer, row, column, boundary
head, conductance (floats modelled as exact rationals). -/
structure GhbEntry where
  k : Nat
  i : Nat
  j : Nat
  bhead : ℚ
  cond : ℚ
deriving DecidableEq

/-- ncol of the MT3D-USGS model grid. -/
def nb1Ncol : Nat := 300

/-- elev_stpt_row1 of notebook 1, cell 9. -/
def elevStptRow1 : ℚ := 308.82281

/-- elev_stpt_row300 of notebook 1, cell 9. -/
def elevStptRow300 : ℚ := 239.13811

/-- elev_slp of notebook 1, cell 9. -/
def elevSlp : ℚ := (308.82281 - 298.83649) / ((nb1Ncol : ℚ) - 1)

/-- The innermost j loop of the first GHB triple loop, at fixed layer k
and row i: for j in np.arange(0, 300, 1), append an entry when the
guard holds, choosing the branch on i mod 2. -/
def ghbRow (k i : Nat) : List GhbEntry :=
  (List.range 300).filterMap fun j =>
    if (i = 1 ∧ (j < 27 ∨ j > 31)) ∨ (i = 299 ∧ (j < 26 ∨ j > 31)) then
      if i % 2 = 0 then
        some ⟨k, i, j, elevStptRow1 - elevSlp * ((j : ℚ) - 1), 11.3636⟩
      else
        some ⟨k, i, j, elevStptRow300 - elevSlp * ((j : ℚ) - 1), 11.3636⟩
    else none

/-- The first GHB loop: for k in [0, 1, 2], for i in [0, 299], run the
inner j loop. -/
def ghbLoop1 : List GhbEntry :=
  ([0, 1, 2] : List Nat).flatMap fun k =>
    ([0, 299] : List Nat).flatMap fun i => ghbRow k i

/-- The second GHB loop: for k in [0, 1, 2], for j in np.arange(26, 32, 1),
append the fixed entry at row 299. -/
def ghbLoop2 : List GhbEntry :=
  ([0, 1, 2] : List Nat).flatMap fun k =>
    (List.range' 26 6).map fun j => ⟨k, 299, j, 238.20, 3409.0801⟩

/-- The complete stress-period list sp handed to ModflowGhb. -/
def ghbSp : List GhbEntry := ghbLoop1 ++ ghbLoop2

/-- Pointwise array update: write v at cell (a, b). -/
def writeCell (B : Int → Int → ℚ) (a b : Int) (v : ℚ) : Int → Int → ℚ :=
  fun x y => if x = a ∧ y = b then v else B x y

/-- Conditional write of the value 1, as performed by each of the four
guarded assignments of the neighbor-expansion loop body. -/
def condWrite (c : Prop) [Decidable c] (B : Int → Int → ℚ) (a b : Int) :
    Int → Int → ℚ :=
  if c then writeCell B a b 1 else B

/-- Body of the neighbor-expansion loop at index (i, j) = p: reading the
lake array A (shape m x n), perform the four guarded writes into the
boundary array B, in source order (up, down, left, right).  The index
arithmetic im1 = i - 1 etc. and the bounds guards are as in the
Python. -/
def bdlkncStep (A : Int → Int → ℚ) (m n : Int) (B : Int → Int → ℚ)
    (p : Int × Int) : Int → Int → ℚ :=
  condWrite (p.2 + 1 < n ∧ A p.1 p.2 = 1 ∧ A p.1 (p.2 + 1) = 0)
    (condWrite (0 ≤ p.2 - 1 ∧ A p.1 p.2 = 1 ∧ A p.1 (p.2 - 1) = 0)
      (condWrite (p.1 + 1 < m ∧ A p.1 p.2 = 1 ∧ A (p.1 + 1) p.2 = 0)
        (condWrite (0 ≤ p.1 - 1 ∧ A p.1 p.2 = 1 ∧ A (p.1 - 1) p.2 = 0)
          B (p.1 - 1) p.2)
        (p.1 + 1) p.2)
      p.1 (p.2 - 1))
    p.1 (p.2 + 1)

/-- The row-major index sequence of the double loop,
for i in np.arange(0, m), for j in np.arange(0, n). -/
def loopIndices (m n : Nat) : List (Int × Int) :=
  (List.range m).flatMap fun (i : Nat) =>
    (List.range n).map fun (j : Nat) => ((i : Int), (j : Int))

/-- The neighbor-expansion loop on the pair state
(LakArr_lyr1, bdlknc_lyr1).  The loop body reads the first component and
writes the second; the initial boundary array is a copy of the lake
array (bdlknc_lyr1 = LakArr_lyr1.copy()). -/
def bdlkncLoopPair (A : Int → Int → ℚ) (m n : Nat) :
    (Int → Int → ℚ) × (Int → Int → ℚ) :=
  (loopIndices m n).foldl
    (fun s p => (s.1, bdlkncStep s.1 (m : Int) (n : Int) s.2 p)) (A, A)

/-- Cell (a, b) has an in-bounds 4-neighbor carrying lake value 1. -/
def hasAdjacentLake (A : Int → Int → ℚ) (m n a b : Int) : Prop :=
  (0 ≤ a - 1 ∧ A (a - 1) b = 1) ∨ (a + 1 < m ∧ A (a + 1) b = 1) ∨
  (0 ≤ b - 1 ∧ A a (b - 1) = 1) ∨ (b + 1 < n ∧ A a (b + 1) = 1)

/-- The iteration at (i, j) writes the value 1 into cell (a, b): one of
its four guarded writes has a true guard and targets (a, b). -/
def writesTo (A : Int → Int → ℚ) (m n i j a b : Int) : Prop :=
  ((0 ≤ i - 1 ∧ A i j = 1 ∧ A (i - 1) j = 0) ∧ a = i - 1 ∧ b = j) ∨
  ((i + 1 < m ∧ A i j = 1 ∧ A (i + 1) j = 0) ∧ a = i + 1 ∧ b = j) ∨
  ((0 ≤ j - 1 ∧ A i j = 1 ∧ A i (j - 1) = 0) ∧ a = i ∧ b = j - 1) ∨
  ((j + 1 < n ∧ A i j = 1 ∧ A i (j + 1) = 0) ∧ a = i ∧ b = j + 1)

instance writesToDecidable (A : Int → Int → ℚ) (m n i j a b : Int) :
    Decidable (writesTo A m n i j a b) := by
  unfold writesTo; infer_instance

/-- Columns after which the staircase base drops (the test is
j + 1 in [40, 80, 120, 160]). -/
def stepCols : List Nat := [40, 80, 120, 160]

/-- ncol of the Zaidel model grid. -/
def zaidelNcol : Nat := 200

/-- Body of the staircase loop of the Zaidel notebook, on the state
(base, bottom row of botm layer 1): botm[1, :, j] = base, then
if j + 1 in [40, 80, 120, 160]: base -= 5. -/
def botmStep (s : ℚ × (Nat → ℚ)) (j : Nat) : ℚ × (Nat → ℚ) :=
  (if j + 1 ∈ stepCols then s.1 - 5 else s.1,
   fun t => if t = j then s.1 else s.2 t)

/-- State of the staircase loop after the first k iterations; the array
begins filled with 25 (botm = 25 * np.ones(...)) and base begins at
20 (base = 20.0). -/
def botmLoopState (k : Nat) : ℚ × (Nat → ℚ) :=
  (List.range k).foldl botmStep (20, fun _ => 25)

/-- The bottom elevation row botm[1, 0, :] after the staircase loop. -/
def botm1 : Nat → ℚ := (botmLoopState zaidelNcol).2

/-- Number of drop columns at or below j. -/
def stepCnt (j : Nat) : Nat := (stepCols.filter fun t => t ≤ j).length

set_option maxRecDepth 8000

/-- Claim C1 as stated is false: it asserts that EVERY notebook invokes
the external simulator and then loads and plots its binary head output,
but the MT3D-USGS notebook (first document) ends after mf.write_input()
and mt.write_input(); its run_model calls are commented out and it
contains no binary-output read at all. -/
theorem claim_every_notebook_runs_solver_false :
    ¬ (∀ nb ∈ notebooks, runsThenReadsThenPlots nb = true) := by decide

/-- Claim C1, amended: the MODFLOW-USG Zaidel notebook invokes the
external simulator and afterwards loads and then plots the simulator
binary head output; the MT3D-USGS notebook performs write_input for the
flow and transport models but contains no solver invocation and no
binary-output read (its run_model calls are commented out). -/
theorem zaidel_runs_solver_mt3dusgs_only_writes :
    runsThenReadsThenPlots nb2Stmts = true ∧
    nb1Stmts.any isWriteInput = true ∧
    nb1Stmts.any isRunModel = false ∧
    nb1Stmts.any isBinaryRead = false := by decide

/-- Claim C3 as stated is false: besides the guarded directory creation
and the head-file cleanup, the try/except fallback around import flopy
(present in both notebooks) also catches and suppresses an exception,
and it is neither of those two statements. -/
theorem import_fallback_catches_exception :
    Stmt.tryImportFallback "flopy" ∈ nb1Stmts ∧
    catchesException (Stmt.tryImportFallback "flopy") = true ∧
    isHeadFileCleanup (Stmt.tryImportFallback "flopy") = false ∧
    isGuardedMakedirs (Stmt.tryImportFallback "flopy") = false := by decide

/-- Claim C3, amended: the statements of the two notebooks that catch or
suppress an exception are exactly the import-flopy fallback of each
notebook and the head-file cleanup of the Zaidel notebook; every other
statement lets errors propagate (the guarded makedirs uses an
exist_ok call, not an except clause). -/
theorem exception_handlers_enumerated :
    allStmts.filter catchesException =
      [Stmt.tryImportFallback "flopy", Stmt.tryImportFallback "flopy",
       Stmt.tryRemoveHeadFile "model_ws" "modelname"] := by decide

/-- Claim C4 as stated is false: the notebooks do contain locally
implemented array- and list-building loops that construct inputs handed
to the modeling API. -/
theorem local_input_loops_exist :
    (allStmts.all fun s => !isLocalLoopBuild s) = false := by decide

/-- Claim C4, amended: the notebooks contain exactly four locally
implemented input-building loops (the two GHB stress-period loops, the
lake-boundary neighbor expansion, and the staircase bottom array); all
remaining grid, stress-period and package data come from literals and
calls into the pre-existing libraries, and each locally built input is
then handed to a library package constructor. -/
theorem local_input_loops_enumerated :
    allStmts.filter isLocalLoopBuild =
      [Stmt.forLoopBuild ["sp"]
         ["k", "i", "j", "elev_stpt_row1", "elev_stpt_row300", "elev_slp"],
       Stmt.forLoopBuild ["sp"] ["k", "j"],
       Stmt.forLoopBuild ["bdlknc_lyr1"] ["LakArr_lyr1"],
       Stmt.forLoopBuild ["botm", "base"] ["base", "j"]] ∧
    Stmt.assign "ghb" (Src.flopyCall "flopy.modflow.ModflowGhb") ∈ nb1Stmts ∧
    Stmt.assign "lak" (Src.flopyCall "flopy.modflow.ModflowLak") ∈ nb1Stmts ∧
    Stmt.assign "dis" (Src.flopyCall "flopy.modflow.ModflowDis") ∈ nb2Stmts := by decide

/-- Claim C5: no notebook statement writes an input-deck file or parses
a binary output file with notebook-local logic; the decks are produced
by the three write_input calls into the modeling library, and the only
binary-output reading happens through the library head-file reader in
the Zaidel notebook. -/
theorem deck_and_binary_io_all_library_calls :
    (allStmts.all fun s => !isDirectFileWrite s && !isDirectBinaryParse s) = true ∧
    allStmts.filter isWriteInput =
      [Stmt.writeInput "mf", Stmt.writeInput "mt", Stmt.writeInput "mf"] ∧
    allStmts.filter isBinaryRead =
      [Stmt.readBinaryOutput "headobj" "flopy.utils.HeadFile",
       Stmt.readBinaryOutput "times" "headobj.get_times",
       Stmt.readBinaryOutput "mfusghead" "headobj.get_data"] := by decide

/-- Claim C6: no statement of either notebook spawns a thread or
concurrent task, and in the sequential trace of the Zaidel notebook
(with run_model modelled from the spec as waiting synchronously) every
statement after run_model starts only after the solver process has
ended; the MT3D-USGS notebook contains no solver invocation at all, so
the condition holds for it vacuously. -/
theorem sequential_execution_no_threads :
    (allStmts.all fun s => !isSpawnThread s) = true ∧
    nb2Stmts.any isRunModel = true ∧
    solverBlocksLaterStmts nb2Stmts = true ∧
    solverBlocksLaterStmts nb1Stmts = true := by decide

/-- Claim C2: the head-file cleanup of the Zaidel notebook never removes
anything.  Its os.remove argument names model_ws, which is unbound in
the notebook (only modelpth is ever assigned), so evaluating the
argument raises NameError, the bare except suppresses it, and a
pre-existing head file data/zaidel/zaidel.hds survives the cleanup. -/
theorem head_cleanup_never_removes_file :
    tryRemoveHeadFileSem zaidelEnv "zaidel" [zaidelHeadFilePath] =
      [zaidelHeadFilePath] ∧
    zaidelHeadFilePath ∈ tryRemoveHeadFileSem zaidelEnv "zaidel" [zaidelHeadFilePath] ∧
    lookupName zaidelEnv "model_ws" = none ∧
    lookupName zaidelEnv "modelpth" = some "data/zaidel" := by decide

lemma mem_foldl_insertDir_of_mem (l : List (List String))
    (acc : List (List String)) (x : List String) (h : x ∈ acc) :
    x ∈ l.foldl insertDir acc := by
  induction l generalizing acc with
  | nil => exact h
  | cons d l ih =>
      rw [List.foldl_cons]
      apply ih
      unfold insertDir
      split
      · exact h
      · exact List.mem_append_left _ h

lemma mem_foldl_insertDir_of_mem_arg (l : List (List String))
    (acc : List (List String)) (x : List String) (h : x ∈ l) :
    x ∈ l.foldl insertDir acc := by
  induction l generalizing acc with
  | nil => cases h
  | cons d l ih =>
      rw [List.foldl_cons]
      rcases List.mem_cons.mp h with rfl | h2
      · apply mem_foldl_insertDir_of_mem
        unfold insertDir
        split
        · assumption
        · exact List.mem_append_right _ (List.mem_singleton.mpr rfl)
      · exact ih _ h2

lemma guardedMakedirsSem_mem_self (p : List String) (hp : p ∈ initSegs p)
    (fs : List (List String)) : p ∈ guardedMakedirsSem p fs := by
  unfold guardedMakedirsSem
  split
  · assumption
  · exact mem_foldl_insertDir_of_mem_arg _ _ _ hp

lemma guardedMakedirsSem_noop (p : List String) (fs : List (List String))
    (h : p ∈ fs) : guardedMakedirsSem p fs = fs := by
  simp [guardedMakedirsSem, h]

lemma guardedMakedirsSem_parents (p : List String) (fs : List (List String))
    (h : p ∉ fs) : ∀ q ∈ initSegs p, q ∈ guardedMakedirsSem p fs := by
  intro q hq
  unfold guardedMakedirsSem
  rw [if_neg h]
  exact mem_foldl_insertDir_of_mem_arg _ _ _ hq

/-- Claim C7: after the guarded setup statement of either notebook, the
model-workspace directory exists; when it already existed the statement
is a no-op (nothing raised, file system unchanged), and when it was
absent it is created together with its ancestor directories. -/
theorem workspace_dir_setup (fs : List (List String)) :
    nb1Modelpth ∈ guardedMakedirsSem nb1Modelpth fs ∧
    nb2Modelpth ∈ guardedMakedirsSem nb2Modelpth fs ∧
    (nb1Modelpth ∈ fs → guardedMakedirsSem nb1Modelpth fs = fs) ∧
    (nb2Modelpth ∈ fs → guardedMakedirsSem nb2Modelpth fs = fs) ∧
    (nb1Modelpth ∉ fs →
      ∀ q ∈ initSegs nb1Modelpth, q ∈ guardedMakedirsSem nb1Modelpth fs) ∧
    (nb2Modelpth ∉ fs →
      ∀ q ∈ initSegs nb2Modelpth, q ∈ guardedMakedirsSem nb2Modelpth fs) :=
  ⟨guardedMakedirsSem_mem_self _ (by decide) fs,
   guardedMakedirsSem_mem_self _ (by decide) fs,
   guardedMakedirsSem_noop _ fs,
   guardedMakedirsSem_noop _ fs,
   guardedMakedirsSem_parents _ fs,
   guardedMakedirsSem_parents _ fs⟩

/-- Claim C7, witness: on a file system already containing data/zaidel,
the setup statement of the Zaidel notebook is a no-op. -/
theorem workspace_dir_setup_witness :
    nb2Modelpth ∈ ([["data"], ["data", "zaidel"]] : List (List String)) ∧
    guardedMakedirsSem nb2Modelpth [["data"], ["data", "zaidel"]] =
      [["data"], ["data", "zaidel"]] :=
  ⟨by decide, (workspace_dir_setup [["data"], ["data", "zaidel"]]).2.2.2.1 (by decide)⟩

lemma ghbRow_zero (k : Nat) : ghbRow k 0 = [] := by
  unfold ghbRow
  rw [List.filterMap_eq_nil_iff]
  intro j hj
  have hc : ¬ (((0 : Nat) = 1 ∧ (j < 27 ∨ j > 31)) ∨
      ((0 : Nat) = 299 ∧ (j < 26 ∨ j > 31))) := by omega
  rw [if_neg hc]

lemma ghbRow_mem_i (k i : Nat) (e : GhbEntry) (he : e ∈ ghbRow k i) :
    e.i = i := by
  unfold ghbRow at he
  rw [List.mem_filterMap] at he
  obtain ⟨j, hj, hfe⟩ := he
  split at hfe
  · split at hfe
    · injection hfe with h
      subst h
      rfl
    · injection hfe with h
      subst h
      rfl
  · cases hfe

lemma ghbRow_mem_bhead (k i : Nat) (h2 : i % 2 ≠ 0) (e : GhbEntry)
    (he : e ∈ ghbRow k i) :
    e.bhead = elevStptRow300 - elevSlp * ((e.j : ℚ) - 1) := by
  unfold ghbRow at he
  rw [List.mem_filterMap] at he
  obtain ⟨j, hj, hfe⟩ := he
  by_cases hcond : (i = 1 ∧ (j < 27 ∨ j > 31)) ∨ (i = 299 ∧ (j < 26 ∨ j > 31))
  · rw [if_pos hcond, if_neg h2] at hfe
    injection hfe with h
    subst h
    rfl
  · rw [if_neg hcond] at hfe
    cases hfe

lemma ghbLoop1_length : ghbLoop1.length = 882 := by
  have hu : ghbLoop1 =
      (ghbRow 0 0 ++ (ghbRow 0 299 ++ [])) ++
      ((ghbRow 1 0 ++ (ghbRow 1 299 ++ [])) ++
       ((ghbRow 2 0 ++ (ghbRow 2 299 ++ [])) ++ [])) := rfl
  have l0 : (ghbRow 0 299).length = 294 := by decide
  have l1 : (ghbRow 1 299).length = 294 := by decide
  have l2 : (ghbRow 2 299).length = 294 := by decide
  rw [hu, ghbRow_zero, ghbRow_zero, ghbRow_zero]
  simp [l0, l1, l2]

lemma ghbLoop2_length : ghbLoop2.length = 18 := by decide

/-- Claim C8: in the GHB assembly, the first triple loop appends nothing
at row index 0 (its guard tests i = 1, which never holds there) and
never takes the even-row branch that uses elev_stpt_row1 (the only
surviving row index, 299, is odd), so sp has 3 * 294 + 3 * 6 = 900
entries, all at row index 299, and every first-loop entry carries the
elev_stpt_row300 head formula. -/
theorem ghb_sp_all_row299_and_count :
    ghbSp.length = 3 * 294 + 3 * 6 ∧
    (∀ e ∈ ghbSp, e.i = 299) ∧
    (∀ k, ghbRow k 0 = []) ∧
    (∀ e ∈ ghbLoop1, e.bhead = elevStptRow300 - elevSlp * ((e.j : ℚ) - 1)) := by
  refine ⟨?_, ?_, ghbRow_zero, ?_⟩
  · unfold ghbSp
    rw [List.length_append, ghbLoop1_length, ghbLoop2_length]
  · intro e he
    rcases List.mem_append.mp he with h | h
    · rcases List.mem_flatMap.mp h with ⟨k, hk, hinner⟩
      rcases List.mem_flatMap.mp hinner with ⟨i, hi, hrow⟩
      have hi2 : i = 0 ∨ i = 299 := by simpa using hi
      rcases hi2 with rfl | rfl
      · rw [ghbRow_zero] at hrow
        cases hrow
      · exact ghbRow_mem_i k 299 e hrow
    · rcases List.mem_flatMap.mp h with ⟨k, hk, hm⟩
      rcases List.mem_map.mp hm with ⟨j, hj, rfl⟩
      rfl
  · intro e he
    rcases List.mem_flatMap.mp he with ⟨k, hk, hinner⟩
    rcases List.mem_flatMap.mp hinner with ⟨i, hi, hrow⟩
    have hi2 : i = 0 ∨ i = 299 := by simpa using hi
    rcases hi2 with rfl | rfl
    · rw [ghbRow_zero] at hrow
      cases hrow
    · exact ghbRow_mem_bhead k 299 (by decide) e hrow

/-- The first entry the surviving branch produces: layer 0, row 299,
column 0. -/
def ghbEntryW : GhbEntry :=
  ⟨0, 299, 0, elevStptRow300 - elevSlp * ((((0 : Nat)) : ℚ) - 1), 11.3636⟩

/-- Claim C8, witness: the concrete entry at layer 0, column 0 is in sp,
sits at row 299, and carries the elev_stpt_row300 head formula. -/
theorem ghb_sp_witness :
    ghbEntryW ∈ ghbSp ∧ ghbEntryW.i = 299 ∧
    ghbEntryW.bhead = elevStptRow300 - elevSlp * ((ghbEntryW.j : ℚ) - 1) := by
  have h0 : ghbEntryW ∈ ghbRow 0 299 := by
    unfold ghbRow
    rw [List.mem_filterMap]
    refine ⟨0, by decide, ?_⟩
    have hc : (((299 : Nat) = 1 ∧ ((0 : Nat) < 27 ∨ (0 : Nat) > 31)) ∨
        ((299 : Nat) = 299 ∧ ((0 : Nat) < 26 ∨ (0 : Nat) > 31))) := by decide
    rw [if_pos hc, if_neg (by decide : ¬ (299 : Nat) % 2 = 0)]
    rfl
  have h1 : ghbEntryW ∈ ghbLoop1 :=
    List.mem_flatMap.mpr ⟨0, by decide,
      List.mem_flatMap.mpr ⟨299, by decide, h0⟩⟩
  have h2 : ghbEntryW ∈ ghbSp := List.mem_append_left _ h1
  exact ⟨h2, ghb_sp_all_row299_and_count.2.1 ghbEntryW h2,
    ghb_sp_all_row299_and_count.2.2.2 ghbEntryW h1⟩

lemma condWrite_apply (c : Prop) [Decidable c] (B : Int → Int → ℚ)
    (a b x y : Int) :
    condWrite c B a b x y = if c ∧ x = a ∧ y = b then 1 else B x y := by
  by_cases hc : c
  · by_cases ht : x = a ∧ y = b
    · simp [condWrite, writeCell, hc, ht]
    · simp [condWrite, writeCell, hc, ht]
  · simp [condWrite, hc]

lemma if_or_collapse (c1 c2 : Prop) [Decidable c1] [Decidable c2]
    (x y : ℚ) :
    (if c1 then x else if c2 then x else y) = if c1 ∨ c2 then x else y := by
  by_cases h1 : c1
  · rw [if_pos h1, if_pos (Or.inl h1)]
  · rw [if_neg h1]
    by_cases h2 : c2
    · rw [if_pos h2, if_pos (Or.inr h2)]
    · rw [if_neg h2, if_neg (by tauto)]

lemma bdlkncStep_apply (A : Int → Int → ℚ) (m n : Int) (B : Int → Int → ℚ)
    (p : Int × Int) (a b : Int) :
    bdlkncStep A m n B p a b =
      if writesTo A m n p.1 p.2 a b then 1 else B a b := by
  unfold bdlkncStep
  rw [condWrite_apply, condWrite_apply, condWrite_apply, condWrite_apply]
  rw [if_or_collapse, if_or_collapse, if_or_collapse]
  unfold writesTo
  refine if_congr ⟨?_, ?_⟩ rfl rfl
  · rintro (((h | h) | h) | h)
    · exact Or.inr (Or.inr (Or.inr h))
    · exact Or.inr (Or.inr (Or.inl h))
    · exact Or.inr (Or.inl h)
    · exact Or.inl h
  · rintro (h | h | h | h)
    · exact Or.inr h
    · exact Or.inl (Or.inr h)
    · exact Or.inl (Or.inl (Or.inr h))
    · exact Or.inl (Or.inl (Or.inl h))

lemma bdlknc_foldl_apply (A : Int → Int → ℚ) (m n : Int)
    (l : List (Int × Int)) (B : Int → Int → ℚ) (a b : Int) :
    (l.foldl (bdlkncStep A m n) B) a b =
      if ∃ p ∈ l, writesTo A m n p.1 p.2 a b then 1 else B a b := by
  induction l generalizing B with
  | nil => simp
  | cons q l ih =>
      rw [List.foldl_cons, ih, bdlkncStep_apply]
      have hiff : (∃ p ∈ q :: l, writesTo A m n p.1 p.2 a b) ↔
          writesTo A m n q.1 q.2 a b ∨ ∃ p ∈ l, writesTo A m n p.1 p.2 a b := by
        constructor
        · rintro ⟨p, hp, hw⟩
          rcases List.mem_cons.mp hp with rfl | hp2
          · exact Or.inl hw
          · exact Or.inr ⟨p, hp2, hw⟩
        · rintro (hw | ⟨p, hp, hw⟩)
          · exact ⟨q, List.mem_cons_self q l, hw⟩
          · exact ⟨p, List.mem_cons_of_mem q hp, hw⟩
      by_cases hq : writesTo A m n q.1 q.2 a b
      · by_cases hl : ∃ p ∈ l, writesTo A m n p.1 p.2 a b
        · simp [hiff, hq, hl]
        · simp [hiff, hq, hl]
      · by_cases hl : ∃ p ∈ l, writesTo A m n p.1 p.2 a b
        · simp [hiff, hq, hl]
        · simp [hiff, hq, hl]

lemma pairFold (A : Int → Int → ℚ) (m n : Int) (l : List (Int × Int))
    (B : Int → Int → ℚ) :
    l.foldl (fun s p => (s.1, bdlkncStep s.1 m n s.2 p)) (A, B) =
      (A, l.foldl (bdlkncStep A m n) B) := by
  induction l generalizing B with
  | nil => rfl
  | cons q l ih =>
      rw [List.foldl_cons, List.foldl_cons]
      exact ih _

lemma mem_loopIndices (m n : Nat) (a b : Int) :
    (a, b) ∈ loopIndices m n ↔
      0 ≤ a ∧ a < (m : Int) ∧ 0 ≤ b ∧ b < (n : Int) := by
  unfold loopIndices
  rw [List.mem_flatMap]
  constructor
  · rintro ⟨i, hi, hm2⟩
    rw [List.mem_map] at hm2
    obtain ⟨j, hj, hecase⟩ := hm2
    rw [List.mem_range] at hi hj
    injection hecase with h1 h2
    subst h1
    subst h2
    refine ⟨by omega, by omega, by omega, by omega⟩
  · rintro ⟨ha0, ham, hb0, hbn⟩
    refine ⟨a.toNat, ?_, ?_⟩
    · rw [List.mem_range]
      omega
    · rw [List.mem_map]
      refine ⟨b.toNat, ?_, ?_⟩
      · rw [List.mem_range]
        omega
      · rw [Prod.mk.injEq]
        constructor <;> omega

lemma exists_writer_iff (A : Int → Int → ℚ) (m n : Nat) (a b : Int)
    (ha0 : 0 ≤ a) (ham : a < (m : Int)) (hb0 : 0 ≤ b) (hbn : b < (n : Int)) :
    (∃ p ∈ loopIndices m n, writesTo A (m : Int) (n : Int) p.1 p.2 a b) ↔
      A a b = 0 ∧ hasAdjacentLake A (m : Int) (n : Int) a b := by
  constructor
  · rintro ⟨⟨i, j⟩, hp, hw⟩
    rw [mem_loopIndices] at hp
    obtain ⟨hi0, him, hj0, hjn⟩ := hp
    rcases hw with ⟨⟨hg, h1, h0⟩, rfl, rfl⟩ | ⟨⟨hg, h1, h0⟩, rfl, rfl⟩ |
      ⟨⟨hg, h1, h0⟩, rfl, rfl⟩ | ⟨⟨hg, h1, h0⟩, rfl, rfl⟩
    · refine ⟨h0, Or.inr (Or.inl ⟨by omega, ?_⟩)⟩
      rw [sub_add_cancel]
      exact h1
    · refine ⟨h0, Or.inl ⟨by omega, ?_⟩⟩
      rw [add_sub_cancel_right]
      exact h1
    · refine ⟨h0, Or.inr (Or.inr (Or.inr ⟨by omega, ?_⟩))⟩
      rw [sub_add_cancel]
      exact h1
    · refine ⟨h0, Or.inr (Or.inr (Or.inl ⟨by omega, ?_⟩))⟩
      rw [add_sub_cancel_right]
      exact h1
  · rintro ⟨h0, hadj⟩
    rcases hadj with ⟨hg, h1⟩ | ⟨hg, h1⟩ | ⟨hg, h1⟩ | ⟨hg, h1⟩
    · refine ⟨(a - 1, b), ?_, Or.inr (Or.inl ⟨⟨?_, h1, ?_⟩, by omega, rfl⟩)⟩
      · rw [mem_loopIndices]
        omega
      · omega
      · rw [sub_add_cancel]
        exact h0
    · refine ⟨(a + 1, b), ?_, Or.inl ⟨⟨?_, h1, ?_⟩, by omega, rfl⟩⟩
      · rw [mem_loopIndices]
        omega
      · omega
      · rw [add_sub_cancel_right]
        exact h0
    · refine ⟨(a, b - 1), ?_, Or.inr (Or.inr (Or.inr ⟨⟨?_, h1, ?_⟩, rfl, by omega⟩))⟩
      · rw [mem_loopIndices]
        omega
      · omega
      · rw [sub_add_cancel]
        exact h0
    · refine ⟨(a, b + 1), ?_, Or.inr (Or.inr (Or.inl ⟨⟨?_, h1, ?_⟩, rfl, by omega⟩))⟩
      · rw [mem_loopIndices]
        omega
      · omega
      · rw [add_sub_cancel_right]
        exact h0

/-- Claim C9: for every lake array with entries in 0, 1, the
neighbor-expansion loop leaves the lake array itself unchanged (the
pair-state first component), and the resulting boundary array holds 1
at an in-bounds cell exactly when that cell is a lake cell or has an
in-bounds 4-neighbor that is a lake cell; no cascading expansion beyond
one cell occurs. -/
theorem bdlknc_neighbor_expansion (A : Int → Int → ℚ) (m n : Nat)
    (h01 : ∀ i j : Int, 0 ≤ i → i < (m : Int) → 0 ≤ j → j < (n : Int) →
      A i j = 0 ∨ A i j = 1)
    (a b : Int) (ha0 : 0 ≤ a) (ham : a < (m : Int)) (hb0 : 0 ≤ b)
    (hbn : b < (n : Int)) :
    (bdlkncLoopPair A m n).1 = A ∧
    ((bdlkncLoopPair A m n).2 a b = 1 ↔
      A a b = 1 ∨ hasAdjacentLake A (m : Int) (n : Int) a b) := by
  have hpair : bdlkncLoopPair A m n =
      (A, (loopIndices m n).foldl (bdlkncStep A (m : Int) (n : Int)) A) := by
    unfold bdlkncLoopPair
    exact pairFold A (m : Int) (n : Int) (loopIndices m n) A
  rw [hpair]
  refine ⟨rfl, ?_⟩
  show (loopIndices m n).foldl (bdlkncStep A (m : Int) (n : Int)) A a b = 1 ↔ _
  rw [bdlknc_foldl_apply]
  rcases h01 a b ha0 ham hb0 hbn with h0 | h1
  · by_cases hadj : hasAdjacentLake A (m : Int) (n : Int) a b
    · rw [if_pos ((exists_writer_iff A m n a b ha0 ham hb0 hbn).mpr ⟨h0, hadj⟩)]
      exact iff_of_true rfl (Or.inr hadj)
    · have hnw : ¬ ∃ p ∈ loopIndices m n,
          writesTo A (m : Int) (n : Int) p.1 p.2 a b := by
        intro hex
        exact hadj ((exists_writer_iff A m n a b ha0 ham hb0 hbn).mp hex).2
      rw [if_neg hnw]
      constructor
      · intro h
        exact Or.inl h
      · rintro (h | h)
        · exact h
        · exact absurd h hadj
  · have hnw : ¬ ∃ p ∈ loopIndices m n,
        writesTo A (m : Int) (n : Int) p.1 p.2 a b := by
      intro hex
      have h00 := ((exists_writer_iff A m n a b ha0 ham hb0 hbn).mp hex).1
      rw [h1] at h00
      exact absurd h00 (by norm_num)
    rw [if_neg hnw]
    exact iff_of_true h1 (Or.inl h1)

/-- Lake array with a single lake cell at (1, 1), for the witness. -/
def lakArrW : Int → Int → ℚ := fun i j => if i = 1 ∧ j = 1 then 1 else 0

/-- Claim C9, witness: on a 3 x 3 grid whose single lake cell is (1, 1),
the loop marks the neighbor cell (0, 1) with 1 and leaves the lake
array unchanged. -/
theorem bdlknc_neighbor_expansion_witness :
    (bdlkncLoopPair lakArrW 3 3).1 = lakArrW ∧
    (bdlkncLoopPair lakArrW 3 3).2 0 1 = 1 := by
  have h01 : ∀ i j : Int, 0 ≤ i → i < ((3 : Nat) : Int) → 0 ≤ j →
      j < ((3 : Nat) : Int) → lakArrW i j = 0 ∨ lakArrW i j = 1 := by
    intro i j _ _ _ _
    by_cases h : i = 1 ∧ j = 1
    · right
      simp [lakArrW, h]
    · left
      simp [lakArrW, h]
  have h := bdlknc_neighbor_expansion lakArrW 3 3 h01 0 1 (by norm_num)
    (by norm_num) (by norm_num) (by norm_num)
  refine ⟨h.1, h.2.mpr (Or.inr ?_)⟩
  refine Or.inr (Or.inl ⟨by norm_num, ?_⟩)
  show lakArrW (0 + 1) 1 = 1
  norm_num [lakArrW]

lemma stepCnt_closed (k : Nat) :
    stepCnt k = (if 40 ≤ k then 1 else 0) + (if 80 ≤ k then 1 else 0) +
      (if 120 ≤ k then 1 else 0) + (if 160 ≤ k then 1 else 0) := by
  unfold stepCnt stepCols
  by_cases h1 : 40 ≤ k <;> by_cases h2 : 80 ≤ k <;> by_cases h3 : 120 ≤ k <;>
    by_cases h4 : 160 ≤ k <;> simp [List.filter, h1, h2, h3, h4]

lemma stepCnt_succ_mem (k : Nat) (h : k + 1 ∈ stepCols) :
    stepCnt (k + 1) = stepCnt k + 1 := by
  have h4 : k + 1 = 40 ∨ k + 1 = 80 ∨ k + 1 = 120 ∨ k + 1 = 160 := by
    simpa [stepCols] using h
  rcases h4 with h | h | h | h
  · have hk : k = 39 := by omega
    subst hk
    decide
  · have hk : k = 79 := by omega
    subst hk
    decide
  · have hk : k = 119 := by omega
    subst hk
    decide
  · have hk : k = 159 := by omega
    subst hk
    decide

lemma stepCnt_succ_not_mem (k : Nat) (h : k + 1 ∉ stepCols) :
    stepCnt (k + 1) = stepCnt k := by
  have hne : k + 1 ≠ 40 ∧ k + 1 ≠ 80 ∧ k + 1 ≠ 120 ∧ k + 1 ≠ 160 := by
    simpa [stepCols] using h
  obtain ⟨h1, h2, h3, h4⟩ := hne
  rw [stepCnt_closed, stepCnt_closed]
  have e1 : (40 ≤ k + 1) ↔ (40 ≤ k) := by omega
  have e2 : (80 ≤ k + 1) ↔ (80 ≤ k) := by omega
  have e3 : (120 ≤ k + 1) ↔ (120 ≤ k) := by omega
  have e4 : (160 ≤ k + 1) ↔ (160 ≤ k) := by omega
  rw [if_congr e1 rfl rfl, if_congr e2 rfl rfl, if_congr e3 rfl rfl,
    if_congr e4 rfl rfl]

lemma botmLoopState_spec (k : Nat) :
    (botmLoopState k).1 = 20 - 5 * (stepCnt k : ℚ) ∧
    (botmLoopState k).2 =
      fun t => if t < k then (20 - 5 * (stepCnt t : ℚ)) else 25 := by
  induction k with
  | zero =>
      constructor
      · show (20 : ℚ) = 20 - 5 * (stepCnt 0 : ℚ)
        have h0 : stepCnt 0 = 0 := by decide
        rw [h0]
        norm_num
      · funext t
        show (25 : ℚ) = if t < 0 then (20 - 5 * (stepCnt t : ℚ)) else 25
        rw [if_neg (Nat.not_lt_zero t)]
  | succ k ih =>
      have hstate : botmLoopState (k + 1) = botmStep (botmLoopState k) k := by
        unfold botmLoopState
        rw [List.range_succ, List.foldl_append, List.foldl_cons, List.foldl_nil]
      obtain ⟨ih1, ih2⟩ := ih
      rw [hstate]
      constructor
      · show (if k + 1 ∈ stepCols then (botmLoopState k).1 - 5
            else (botmLoopState k).1) = 20 - 5 * (stepCnt (k + 1) : ℚ)
        rw [ih1]
        by_cases hm : k + 1 ∈ stepCols
        · rw [if_pos hm, stepCnt_succ_mem k hm]
          push_cast
          ring
        · rw [if_neg hm, stepCnt_succ_not_mem k hm]
      · show (fun t => if t = k then (botmLoopState k).1
            else (botmLoopState k).2 t) =
          fun t => if t < k + 1 then (20 - 5 * (stepCnt t : ℚ)) else 25
        funext t
        by_cases ht : t = k
        · subst ht
          rw [if_pos rfl, ih1, if_pos (Nat.lt_succ_self t)]
        · rw [if_neg ht, ih2]
          show (if t < k then (20 : ℚ) - 5 * (stepCnt t : ℚ) else 25) =
            if t < k + 1 then (20 : ℚ) - 5 * (stepCnt t : ℚ) else 25
          by_cases hlt : t < k
          · rw [if_pos hlt, if_pos (Nat.lt_succ_of_lt hlt)]
          · rw [if_neg hlt, if_neg (by omega)]

/-- Claim C10: for every column j of the Zaidel grid, the staircase loop
leaves botm layer 1 at 20 minus 5 for each drop threshold at or below
j; in particular columns 0 to 39 sit at 20, columns 160 to 199 at 0,
and every value lies in 0, 5, 10, 15, 20. -/
theorem zaidel_botm_staircase (j : Nat) (h : j < 200) :
    botm1 j = 20 - 5 * (stepCnt j : ℚ) ∧
    (j < 40 → botm1 j = 20) ∧
    (160 ≤ j → botm1 j = 0) ∧
    (botm1 j = 0 ∨ botm1 j = 5 ∨ botm1 j = 10 ∨ botm1 j = 15 ∨ botm1 j = 20) := by
  have hb : botm1 j = 20 - 5 * (stepCnt j : ℚ) := by
    unfold botm1 zaidelNcol
    rw [(botmLoopState_spec 200).2]
    show (if j < 200 then (20 : ℚ) - 5 * (stepCnt j : ℚ) else 25) =
      20 - 5 * (stepCnt j : ℚ)
    rw [if_pos h]
  refine ⟨hb, ?_, ?_, ?_⟩
  · intro hj
    have h0 : stepCnt j = 0 := by
      rw [stepCnt_closed]
      rw [if_neg (by omega : ¬ 40 ≤ j), if_neg (by omega : ¬ 80 ≤ j),
        if_neg (by omega : ¬ 120 ≤ j), if_neg (by omega : ¬ 160 ≤ j)]
    rw [hb, h0]
    norm_num
  · intro hj
    have h4 : stepCnt j = 4 := by
      rw [stepCnt_closed]
      rw [if_pos (by omega : 40 ≤ j), if_pos (by omega : 80 ≤ j),
        if_pos (by omega : 120 ≤ j), if_pos (by omega : 160 ≤ j)]
    rw [hb, h4]
    norm_num
  · have h4 : stepCnt j ≤ 4 := by
      have hle := List.length_filter_le (fun t => decide (t ≤ j)) stepCols
      simpa [stepCnt, stepCols] using hle
    obtain ⟨c, hc⟩ : ∃ c, stepCnt j = c := ⟨_, rfl⟩
    rw [hc] at h4
    rw [hb, hc]
    interval_cases c <;> norm_num

/-- Claim C10, witness: at column 45 the bottom sits one step down, at
15, matching the counting formula. -/
theorem zaidel_botm_staircase_witness :
    45 < 200 ∧ (botm1 45 = 20 - 5 * (stepCnt 45 : ℚ) ∧
      (45 < 40 → botm1 45 = 20) ∧ (160 ≤ 45 → botm1 45 = 0) ∧
      (botm1 45 = 0 ∨ botm1 45 = 5 ∨ botm1 45 = 10 ∨ botm1 45 = 15 ∨
        botm1 45 = 20)) :=
  ⟨by norm_num, zaidel_botm_staircase 45 (by norm_num)⟩
